/-
Verification of the CX16 space-game universe-generation pipeline.

Shallow embedding of the two core Python programs:
  * `universe_builder/Phase 0 Star Catalog/build_star_database.py`
  * `universe_builder/1_natural_space_objects/generate_system_objects.py`

Modelling conventions:
  * machine integers / Python ints are `Nat` / `Int`; 32-bit wrap-around is an
    explicit `% 2^32`;
  * Python floats are modelled as `ℚ` (exact rational arithmetic);
  * the Mersenne-Twister generator `random.Random(seed)` is modelled as an
    abstract pair of draw streams (`RState`): theorems quantify over every
    stream, which covers every concrete seed;
  * `hashlib.sha256` is implemented bit-faithfully over byte lists (FIPS
    180-4), so hash-derived attributes are computed exactly;
  * fields that no claim mentions and that are written but never read by the
    modelled logic (the `local_x`/`local_y` pixel coordinates, which depend on
    transcendental `math.cos`/`math.sin`) are omitted from the record type;
    the passes that assign them touch no other field.
-/
import Mathlib

/-! ## SHA-256 (FIPS 180-4) over byte lists -/

/-- Truncate to a 32-bit word. -/
def w32 (n : Nat) : Nat := n % 4294967296

/-- Right rotation of a 32-bit word. -/
def rotr32 (n x : Nat) : Nat := w32 ((x >>> n) ||| (x <<< (32 - n)))

/-- SHA-256 `Ch` function (bitwise choose). -/
def shaCh (x y z : Nat) : Nat := (x &&& y) ^^^ ((x ^^^ 4294967295) &&& z)

/-- SHA-256 `Maj` function (bitwise majority). -/
def shaMaj (x y z : Nat) : Nat := (x &&& y) ^^^ (x &&& z) ^^^ (y &&& z)

/-- SHA-256 big sigma-0. -/
def bigSigma0 (x : Nat) : Nat := rotr32 2 x ^^^ rotr32 13 x ^^^ rotr32 22 x

/-- SHA-256 big sigma-1. -/
def bigSigma1 (x : Nat) : Nat := rotr32 6 x ^^^ rotr32 11 x ^^^ rotr32 25 x

/-- SHA-256 small sigma-0. -/
def smallSigma0 (x : Nat) : Nat := rotr32 7 x ^^^ rotr32 18 x ^^^ (x >>> 3)

/-- SHA-256 small sigma-1. -/
def smallSigma1 (x : Nat) : Nat := rotr32 17 x ^^^ rotr32 19 x ^^^ (x >>> 10)

/-- The 64 SHA-256 round constants. -/
def shaK : List Nat :=
  [1116352408, 1899447441, 3049323471, 3921009573,
   961987163, 1508970993, 2453635748, 2870763221,
   3624381080, 310598401, 607225278, 1426881987,
   1925078388, 2162078206, 2614888103, 3248222580,
   3835390401, 4022224774, 264347078, 604807628,
   770255983, 1249150122, 1555081692, 1996064986,
   2554220882, 2821834349, 2952996808, 3210313671,
   3336571891, 3584528711, 113926993, 338241895,
   666307205, 773529912, 1294757372, 1396182291,
   1695183700, 1986661051, 2177026350, 2456956037,
   2730485921, 2820302411, 3259730800, 3345764771,
   3516065817, 3600352804, 4094571909, 275423344,
   430227734, 506948616, 659060556, 883997877,
   958139571, 1322822218, 1537002063, 1747873779,
   1955562222, 2024104815, 2227730452, 2361852424,
   2428436474, 2756734187, 3204031479, 3329325298]

/-- Working state of the SHA-256 compression function: eight 32-bit words. -/
structure H8 where
  a : Nat
  b : Nat
  c : Nat
  d : Nat
  e : Nat
  f : Nat
  g : Nat
  h : Nat
deriving Repr, DecidableEq

/-- The SHA-256 initial hash value. -/
def shaH0 : H8 :=
  ⟨1779033703, 3144134277, 1013904242, 2773480762,
   1359893119, 2600822924, 528734635, 1541459225⟩

/-- Pad a byte message per FIPS 180-4: append `0x80`, zeros, then the 64-bit
big-endian bit length, reaching a multiple of 64 bytes. -/
def shaPad (msg : List Nat) : List Nat :=
  let len := msg.length
  let r := (len + 1) % 64
  let k := (56 + 64 - r) % 64
  msg ++ [0x80] ++ List.replicate k 0 ++
    (List.range 8).map (fun i => ((8 * len) >>> (8 * (7 - i))) &&& 0xFF)

/-- Split a byte list into 64-byte blocks (fuel-based recursion; the fuel
`l.length` always suffices since each step consumes at least one byte). -/
def toBlocksAux : Nat → List Nat → List (List Nat)
  | 0, _ => []
  | _, [] => []
  | fuel + 1, l@(_ :: _) => l.take 64 :: toBlocksAux fuel (l.drop 64)

/-- Split a byte list into 64-byte blocks. -/
def toBlocks (l : List Nat) : List (List Nat) := toBlocksAux l.length l

/-- Parse a 64-byte block into 16 big-endian 32-bit words. -/
def blockWords (block : List Nat) : List Nat :=
  (List.range 16).map (fun i =>
    (block.getD (4 * i) 0) * 16777216 + (block.getD (4 * i + 1) 0) * 65536 +
    (block.getD (4 * i + 2) 0) * 256 + block.getD (4 * i + 3) 0)

/-- Extend 16 message words to the 64-entry SHA-256 message schedule. -/
def shaSchedule (w16 : List Nat) : List Nat :=
  (List.range 48).foldl
    (fun w _ =>
      let t := w.length
      w ++ [w32 (smallSigma1 (w.getD (t - 2) 0) + w.getD (t - 7) 0 +
                 smallSigma0 (w.getD (t - 15) 0) + w.getD (t - 16) 0)])
    w16

/-- One SHA-256 compression step (round `t`). -/
def shaRound (w : List Nat) (st : H8) (t : Nat) : H8 :=
  let t1 := w32 (st.h + bigSigma1 st.e + shaCh st.e st.f st.g + shaK.getD t 0 +
                 w.getD t 0)
  let t2 := w32 (bigSigma0 st.a + shaMaj st.a st.b st.c)
  ⟨w32 (t1 + t2), st.a, st.b, st.c, w32 (st.d + t1), st.e, st.f, st.g⟩

/-- Compress one message block into the running hash value. -/
def compressBlock (hv : H8) (block : List Nat) : H8 :=
  let w := shaSchedule (blockWords block)
  let fin := (List.range 64).foldl (shaRound w) hv
  ⟨w32 (hv.a + fin.a), w32 (hv.b + fin.b), w32 (hv.c + fin.c),
   w32 (hv.d + fin.d), w32 (hv.e + fin.e), w32 (hv.f + fin.f),
   w32 (hv.g + fin.g), w32 (hv.h + fin.h)⟩

/-- SHA-256 of a byte message, as the eight final 32-bit hash words. -/
def sha256words (msg : List Nat) : H8 :=
  (toBlocks (shaPad msg)).foldl compressBlock shaH0

/-- Python `int.from_bytes(sha256(key).digest()[:4], "big")`: the first four digest
bytes read big-endian are exactly the first hash word. -/
def sha256h32 (msg : List Nat) : Nat := (sha256words msg).a

/-- UTF-8 bytes of an ASCII string (all keys hashed by the program are ASCII,
where UTF-8 bytes coincide with code points). -/
def strBytes (s : String) : List Nat := s.data.map Char.toNat

/-! ## Abstract model of `random.Random`

`random.Random(seed)` is a Mersenne-Twister stream.  We model a generator
state as two abstract streams (one of rationals in the unit interval for
`random`/`uniform`, one of naturals for `choice`) plus cursors.  All theorems
quantify over every stream, hence over every concrete seed. -/

/-- Abstract state of a `random.Random` instance. -/
structure RState where
  rngStream : Nat → ℚ
  idxStream : Nat → Nat
  fpos : Nat
  ipos : Nat

/-- Draw the next raw float (models `random.random()`). -/
def pyrandom (s : RState) : ℚ × RState :=
  (s.rngStream s.fpos, { s with fpos := s.fpos + 1 })

/-- Models `random.uniform(a, b) = a + (b - a) * random.random()`. -/
def pyuniform (s : RState) (a b : ℚ) : ℚ × RState :=
  (a + (b - a) * (pyrandom s).1, (pyrandom s).2)

/-- Models `random.choice(l)` for a nonempty list: an arbitrary valid index drawn
from the integer stream. -/
def pychoice (s : RState) (l : List Nat) : Nat × RState :=
  (l.getD (s.idxStream s.ipos % l.length) 0, { s with ipos := s.ipos + 1 })

/-! ## `generate_system_objects.py`: distributions and constants -/

/-- Per-system primary object count distribution (`OBJECT_COUNT_DISTRIBUTION`). -/
def OBJECT_COUNT_DISTRIBUTION : List (Int × ℚ) :=
  [(0, 10), (1, 25), (2, 30), (3, 20), (4, 10), (5, 5)]

/-- Primary planet type probabilities (`PLANET_TYPE_DISTRIBUTION`). -/
def PLANET_TYPE_DISTRIBUTION : List (String × ℚ) :=
  [("RP", 60), ("DP", 15), ("IC", 15), ("GG", 10)]

/-- Maximum moons per planet class (`MAX_MOONS_PER_CLASS`), as an association
list modelling the Python dict (insertion order preserved). -/
def MAX_MOONS_PER_CLASS : List (String × Nat) :=
  [("RP", 1), ("DP", 1), ("IC", 1), ("GG", 3)]

/-- Moon type probabilities for rocky parents (`MOON_TYPES_ROCKY`). -/
def MOON_TYPES_ROCKY : List (String × ℚ) := [("RM", 70), ("IM", 30)]

/-- Moon type probabilities for gas giants (`MOON_TYPES_GG`). -/
def MOON_TYPES_GG : List (String × ℚ) := [("RM", 50), ("IM", 50)]

/-- Spectral-based habitability baselines (`HAB_STAR_BASE`). -/
def HAB_STAR_BASE : List (String × Int) :=
  [("O", 5), ("B", 5), ("A", 15), ("F", 30), ("G", 50), ("K", 45), ("M", 35)]

/-- Spectral-based risk baselines (`RISK_STAR_BASE`). -/
def RISK_STAR_BASE : List (String × Int) :=
  [("O", 25), ("B", 25), ("A", 15), ("F", 10), ("G", 0), ("K", -5), ("M", -10)]

/-- Class habitability modifiers (`HAB_CLASS_MOD`). -/
def HAB_CLASS_MOD : List (String × Int) :=
  [("RP", 30), ("DP", 10), ("IC", 0), ("GG", -25), ("RM", 20), ("IM", 0),
   ("AS", -10)]

/-- Class risk baselines (`RISK_CLASS_BASE`). -/
def RISK_CLASS_BASE : List (String × Int) :=
  [("RP", 40), ("DP", 60), ("IC", 50), ("GG", 80), ("RM", 45), ("IM", 55),
   ("AS", 65)]

/-- Association-list lookup modelling Python `dict.get(key)`. -/
def alookup {α β : Type} [DecidableEq α] (k : α) : List (α × β) → Option β
  | [] => none
  | (k', v) :: rest => if k = k' then some v else alookup k rest

/-- Python `dict.get(key, dflt)`. -/
def alookupD {α β : Type} [DecidableEq α] (k : α) (l : List (α × β)) (d : β) :
    β :=
  (alookup k l).getD d

/-! ## Weighted cumulative-sum selection -/

/-- The cumulative-sum scan shared by every weighted choice in the source:
walk the table accumulating weights, returning the first value whose running
cumulative weight is `≥ r` (`if r <= acc: return val`). -/
def cumFirst {α : Type} (r : ℚ) (acc : ℚ) : List (α × ℚ) → Option α
  | [] => none
  | (v, w) :: rest =>
      if r ≤ acc + w then some v else cumFirst r (acc + w) rest

/-- Weighted selection with the source's fallback `return table[-1][0]` when
the scan falls off the end (the default `d` is only reached on an empty table,
where Python would raise `IndexError`). -/
def weightedPickD {α : Type} (r : ℚ) (table : List (α × ℚ)) (d : α) : α :=
  match cumFirst r 0 table with
  | some v => v
  | none => ((table.getLast?).map Prod.fst).getD d

/-- Total weight of a table. -/
def tableTotal {α : Type} (table : List (α × ℚ)) : ℚ :=
  (table.map Prod.snd).sum

/-- Model of `choose_weighted(rng, table)`: draw `r = rng.uniform(0, total)` and select
by cumulative-sum threshold. -/
def choose_weighted (s : RState) (table : List (Int × ℚ)) : Int × RState :=
  let total := tableTotal table
  (weightedPickD (pyuniform s 0 total).1 table 0, (pyuniform s 0 total).2)

/-- Model of `generate_planet_type(rng)`: weighted choice of primary planet class. -/
def generate_planet_type (s : RState) : String × RState :=
  let total := tableTotal PLANET_TYPE_DISTRIBUTION
  (weightedPickD (pyuniform s 0 total).1 PLANET_TYPE_DISTRIBUTION (""),
    (pyuniform s 0 total).2)

/-- Model of `choose_num_moons(rng, parent_class)`: number of moons for a planet,
respecting `MAX_MOONS_PER_CLASS` (`.get(parent_class, 0)`); draws nothing when
the class permits no moons. -/
def choose_num_moons (s : RState) (parent_class : String) : Nat × RState :=
  let max_m := alookupD parent_class MAX_MOONS_PER_CLASS 0
  if max_m = 0 then (0, s)
  else
    let choices : List (Nat × ℚ) :=
      if parent_class = "GG" then [(0, 20), (1, 40), (2, 30), (3, 10)]
      else [(0, 50), (1, 50)]
    let filtered := choices.filter (fun vw => vw.1 ≤ max_m)
    let total := tableTotal filtered
    (weightedPickD (pyuniform s 0 total).1 filtered 0, (pyuniform s 0 total).2)

/-- Model of `choose_moon_class(rng, parent_class)`: moon class from the parent-type
table. -/
def choose_moon_class (s : RState) (parent_class : String) : String × RState :=
  let table := if parent_class = "GG" then MOON_TYPES_GG else MOON_TYPES_ROCKY
  let total := tableTotal table
  (weightedPickD (pyuniform s 0 total).1 table (""), (pyuniform s 0 total).2)

/-! ## Deterministic attributes (`compute_attributes`) -/

/-- Model of `parse_spectral_letter(spect)`: first alphabetic character of the
upper-cased spectral string, else `"?"`.  (ASCII `isalpha`; every table key it
is compared against is ASCII.) -/
def parse_spectral_letter (spect : String) : String :=
  match spect.toUpper.data.find? Char.isAlpha with
  | some ch => String.singleton ch
  | none => "?"

/-- Model of `clamp(value, lo, hi) = max(lo, min(hi, value))`. -/
def clamp (value lo hi : Int) : Int := max lo (min hi value)

/-- Ore-richness bucketing of the hash byte at bits 8-15, by class family. -/
def oreOf (obj_class : String) (ore_byte : Nat) : Nat :=
  if obj_class ∈ (["RP", "DP", "RM", "AS"] : List String) then
    if ore_byte < 25 then 0
    else if ore_byte < 100 then 1
    else if ore_byte < 200 then 2
    else 3
  else if obj_class ∈ (["IC", "IM"] : List String) then
    if ore_byte < 80 then 0
    else if ore_byte < 180 then 1
    else if ore_byte < 230 then 2
    else 3
  else 0

/-- Fuel-richness bucketing of the hash byte at bits 16-23; gas giants use the
two-tier high-fuel mapping. -/
def fuelOf (obj_class : String) (fuel_byte : Nat) : Nat :=
  if obj_class = "GG" then
    if fuel_byte < 128 then 2 else 3
  else
    if fuel_byte < 40 then 0
    else if fuel_byte < 160 then 1
    else if fuel_byte < 230 then 2
    else 3

/-- The hash key `f"{system_id}:{object_id}:{obj_class}"` as UTF-8 bytes. -/
def attrKey (system_id object_id : Nat) (obj_class : String) : List Nat :=
  strBytes (Nat.repr system_id ++ ":" ++ Nat.repr object_id ++ ":" ++ obj_class)

/-- Model of `compute_attributes(system_id, object_id, obj_class, spect)`: the
`(habitability, risk, ore_richness, fuel_richness)` tuple, derived from the
first 32 bits of `sha256(key)` with spectral/class baselines and jitter. -/
def compute_attributes (system_id object_id : Nat) (obj_class spect : String) :
    Int × Int × Nat × Nat :=
  let h32 := sha256h32 (attrKey system_id object_id obj_class)
  let spect_letter := parse_spectral_letter spect
  let hab_star := alookupD spect_letter HAB_STAR_BASE 30
  let risk_star := alookupD spect_letter RISK_STAR_BASE 0
  let hab_class := alookupD obj_class HAB_CLASS_MOD 0
  let risk_class := alookupD obj_class RISK_CLASS_BASE 50
  let delta_h : Int := (h32 &&& 0xF : Nat) - 8
  let habitability := clamp (hab_star + hab_class + delta_h) 0 100
  let delta_r : Int := ((h32 >>> 4) &&& 0xF : Nat) - 8
  let risk := clamp (risk_class + risk_star + delta_r) 0 100
  let ore := oreOf obj_class ((h32 >>> 8) &&& 0xFF)
  let fuel := fuelOf obj_class ((h32 >>> 16) &&& 0xFF)
  (habitability, risk, ore, fuel)

/-! ## Celestial objects and the per-system generator -/

/-- One generated planet / moon / asteroid row.  (`local_x`/`local_y` are
omitted: they are written by `assign_local_coordinates`, which reads no other
field it modifies and which no claim mentions.) -/
structure CelestialObject where
  system_id : Nat
  object_id : Nat
  name : String
  class_code : String
  parent_object_id : Option Nat
  is_moon : Nat
  habitability : Int := 0
  risk : Int := 0
  ore_richness : Nat := 0
  fuel_richness : Nat := 0
deriving Repr, DecidableEq

/-- Placeholder object (used only as the default of `List.getD` at call sites
where Python indexing is in bounds). -/
def defaultObject : CelestialObject :=
  { system_id := 0, object_id := 0, name := "", class_code := "",
    parent_object_id := none, is_moon := 0 }

/-- The attribute-decoration step applied to every object at the end of
`generate_objects_for_system` (both the Sol branch and the normal branch). -/
def attrUpdate (spect : String) (o : CelestialObject) : CelestialObject :=
  let t := compute_attributes o.system_id o.object_id o.class_code spect
  { o with habitability := t.1, risk := t.2.1, ore_richness := t.2.2.1,
           fuel_richness := t.2.2.2 }

/-- Step 2: generate `n` primary planets, ids `start, start+1, ...`. -/
def genPrimaries (system_id start : Nat) :
    Nat → RState → List CelestialObject × RState
  | 0, s => ([], s)
  | n + 1, s =>
      let g := generate_planet_type s
      let obj : CelestialObject :=
        { system_id := system_id, object_id := start, name := "",
          class_code := g.1, parent_object_id := none, is_moon := 0 }
      let rest := genPrimaries system_id (start + 1) n g.2
      (obj :: rest.1, rest.2)

/-- Step 3: with 20% probability (given at least two primaries) reclassify one
uniformly chosen primary as a large asteroid (`AS`). -/
def asteroidSub (objects : List CelestialObject) (primary_indices : List Nat)
    (s : RState) : List CelestialObject × RState :=
  if 2 ≤ primary_indices.length then
    let d := (pyrandom s).1
    let s1 := (pyrandom s).2
    if d < 1/5 then
      let idx := (pychoice s1 primary_indices).1
      let s2 := (pychoice s1 primary_indices).2
      match objects.get? idx with
      | some o => (objects.set idx { o with class_code := "AS" }, s2)
      | none => (objects, s2)
    else (objects, s1)
  else (objects, s)

/-- Generate `n` moons of `parent_idx`, ids `start, start+1, ...`. -/
def genMoons (system_id parent_idx : Nat) (parent_class : String)
    (start : Nat) : Nat → RState → List CelestialObject × RState
  | 0, s => ([], s)
  | n + 1, s =>
      let g := choose_moon_class s parent_class
      let moon : CelestialObject :=
        { system_id := system_id, object_id := start, name := "",
          class_code := g.1, parent_object_id := some parent_idx,
          is_moon := 1 }
      let rest := genMoons system_id parent_idx parent_class (start + 1) n g.2
      (moon :: rest.1, rest.2)

/-- Step 4: for each eligible primary (class a key of `MAX_MOONS_PER_CLASS`),
draw a moon count and append that many moons. -/
def moonPhase (system_id : Nat) :
    List Nat → List CelestialObject → RState → List CelestialObject × RState
  | [], objects, s => (objects, s)
  | parent_idx :: rest, objects, s =>
      match objects.get? parent_idx with
      | none => moonPhase system_id rest objects s
      | some parent =>
          match alookup parent.class_code MAX_MOONS_PER_CLASS with
          | none => moonPhase system_id rest objects s
          | some _ =>
              let nm := choose_num_moons s parent.class_code
              let moons := genMoons system_id parent_idx parent.class_code
                objects.length nm.1 nm.2
              moonPhase system_id rest (objects ++ moons.1) moons.2

/-- Roman numerals used for primary names. -/
def romanNumerals : List String :=
  ["I", "II", "III", "IV", "V", "VI", "VII", "VIII", "IX", "X"]

/-- First half of `assign_names_for_system`: name the primaries and build
`primary_name_map`. -/
def primaryNames (system_name : String) :
    List CelestialObject → List Nat → Nat → List (Nat × String) →
    List CelestialObject × List (Nat × String)
  | objects, [], _, pmap => (objects, pmap)
  | objects, primary_idx :: rest, idx, pmap =>
      match objects.get? primary_idx with
      | none => primaryNames system_name objects rest (idx + 1) pmap
      | some o =>
          let obj_name :=
            if o.class_code = "AS" then system_name ++ " Asteroid"
            else
              system_name ++ " " ++
                (if idx < romanNumerals.length then romanNumerals.getD idx ("")
                 else Nat.repr (idx + 1))
          primaryNames system_name
            (objects.set primary_idx { o with name := obj_name }) rest
            (idx + 1) (pmap ++ [(primary_idx, obj_name)])

/-- Second half of `assign_names_for_system`: walk the objects, naming each
moon `<parent-name>-<letter>` with a per-parent counter. -/
def moonNames (system_name : String) (pmap : List (Nat × String)) :
    List CelestialObject → List (Nat × Nat) → List CelestialObject
  | [], _ => []
  | o :: rest, counters =>
      if o.is_moon ≠ 1 then o :: moonNames system_name pmap rest counters
      else
        let parent_idx := o.parent_object_id.getD 0
        let base := alookupD parent_idx pmap system_name
        let count := alookupD parent_idx counters 0 + 1
        let suffix := String.singleton (Char.ofNat (97 + (count - 1)))
        { o with name := base ++ "-" ++ suffix } ::
          moonNames system_name pmap rest ((parent_idx, count) :: counters)

/-- Model of `assign_names_for_system(system_name, objects, primary_indices)`. -/
def assign_names_for_system (system_name : String)
    (objects : List CelestialObject) (primary_indices : List Nat) :
    List CelestialObject :=
  let np := primaryNames system_name objects primary_indices 0 []
  moonNames system_name np.2 np.1 []

/-- The fixed, hand-authored Sol objects (system 0), before attribute
decoration. -/
def solObjects : List CelestialObject :=
  [{ system_id := 0, object_id := 0, name := "Earth", class_code := "RP",
     parent_object_id := none, is_moon := 0 },
   { system_id := 0, object_id := 1, name := "Luna", class_code := "RM",
     parent_object_id := some 0, is_moon := 1 },
   { system_id := 0, object_id := 2, name := "Mars", class_code := "RP",
     parent_object_id := none, is_moon := 0 },
   { system_id := 0, object_id := 3, name := "Ceres", class_code := "AS",
     parent_object_id := none, is_moon := 0 }]

/-- Everything `generate_objects_for_system` does before the final attribute
pass; `randomOf` models `random.Random` applied to the derived seed
`global_seed ^ (system_id * 0x9E3779B1)`. -/
def preObjects (system_id : Nat) (system_name : String) (global_seed : Nat)
    (max_primaries : Int) (randomOf : Nat → RState) : List CelestialObject :=
  if system_id = 0 then solObjects
  else
    let s0 := randomOf (Nat.xor global_seed (system_id * 0x9E3779B1))
    let cw := choose_weighted s0 OBJECT_COUNT_DISTRIBUTION
    let primary_budget := cw.1
    if primary_budget ≤ 0 ∨ max_primaries ≤ 0 then []
    else
      let budget := min primary_budget max_primaries
      let n := budget.toNat
      let gp := genPrimaries system_id 0 n cw.2
      let primary_indices := List.range n
      let sub := asteroidSub gp.1 primary_indices gp.2
      let mp := moonPhase system_id primary_indices sub.1 sub.2
      assign_names_for_system system_name mp.1 primary_indices

/-- Model of `generate_objects_for_system(system_id, system_name, spect, global_seed,
max_primaries)`: Sol special case or the normal pipeline, then the attribute
pass over every object. -/
def generate_objects_for_system (system_id : Nat) (system_name spect : String)
    (global_seed : Nat) (max_primaries : Int) (randomOf : Nat → RState) :
    List CelestialObject :=
  (preObjects system_id system_name global_seed max_primaries randomOf).map
    (attrUpdate spect)

/-! ## `build_star_database.py`: star records, projection, collision pruning -/

/-- One loaded star row.  String fields that the program parses on demand
(`lum`, `mag`) are modelled as `Option ℚ`: `some v` means the raw field was
non-empty and `float()`-parseable with value `v`; `none` covers both the empty
string and an unparseable one (Python catches `ValueError` and falls
through). -/
structure StarRec where
  proper : String
  dist_ly : ℚ
  x_ly : ℚ
  y_ly : ℚ
  spect : String
  mag : Option ℚ
  lum : Option ℚ
  is_sol : Bool
deriving Repr, DecidableEq

/-- Placeholder star (used only where Python indexing is in bounds). -/
def dummyStar : StarRec :=
  { proper := "", dist_ly := 0, x_ly := 0, y_ly := 0, spect := "",
    mag := none, lum := none, is_sol := false }

/-- Model of `_size_metric(star)`: the `(has_lum, metric1, metric2)` tuple used to pick
the "largest" star in a cell.  Every branch overwrites the `-1e9` initial
values before returning. -/
def size_metric (s : StarRec) : Nat × ℚ × ℚ :=
  match s.lum with
  | some lum_val => (1, lum_val, 0)
  | none =>
      match s.mag with
      | some mag_val => (0, -mag_val, 0)
      | none => (0, 0, -s.dist_ly)

/-- Strict lexicographic order on metric triples — exactly Python's tuple
comparison used by `max(..., key=_size_metric)`. -/
def metricLt (x y : Nat × ℚ × ℚ) : Bool :=
  x.1 < y.1 ∨
    (x.1 = y.1 ∧ (x.2.1 < y.2.1 ∨ (x.2.1 = y.2.1 ∧ x.2.2 < y.2.2)))

/-- Python `max(l, key=f)`: scan keeping the current element unless a later
one's key is strictly greater, so the first maximal element wins. -/
def pyMaxKey (f : StarRec → Nat × ℚ × ℚ) : List StarRec → StarRec
  | [] => dummyStar
  | x :: xs => xs.foldl (fun best y => if metricLt (f best) (f y) then y
      else best) x

/-- Python 3 `round()` on a `.0`-free value: round half to even. -/
def pyRound (q : ℚ) : Int :=
  let f := ⌊q⌋
  let r := q - f
  if r < 1/2 then f
  else if 1/2 < r then f + 1
  else if f % 2 = 0 then f else f + 1

/-- Models `cell_map.setdefault(key, []).append(s)` on an insertion-ordered dict,
modelled as an association list. -/
def addToCell (m : List ((Int × Int) × List StarRec)) (k : Int × Int) (s : StarRec) :
    List ((Int × Int) × List StarRec) :=
  match m with
  | [] => [(k, [s])]
  | (k', l) :: rest =>
      if k' = k then (k', l ++ [s]) :: rest else (k', l) :: addToCell rest k s

/-- First loop of `project_to_grid`: project each star to its grid cell,
pruning stars outside `[0, 99]`, and group survivors per cell in insertion
order. -/
def cellMapOf (stars : List StarRec) (scale : ℚ) :
    List ((Int × Int) × List StarRec) :=
  stars.foldl
    (fun m s =>
      let gx := pyRound (50 + s.x_ly / scale)
      let gy := pyRound (50 + s.y_ly / scale)
      if gx < 0 ∨ 99 < gx ∨ gy < 0 ∨ 99 < gy then m
      else addToCell m (gx, gy) s)
    []

/-- Collision resolution for one cell: Sol wins outright; otherwise the
"largest" among catalog-named occupants, else the "largest" overall. -/
def chooseSurvivor (cell_stars : List StarRec) : StarRec :=
  match cell_stars.filter (fun s => s.is_sol) with
  | sol :: _ => sol
  | [] =>
      let named := cell_stars.filter (fun s => s.proper.trim ≠ "")
      match named with
      | [] => pyMaxKey size_metric cell_stars
      | _ :: _ => pyMaxKey size_metric named

/-- Model of `project_to_grid(stars, scale)`: one survivor per occupied cell. -/
def project_to_grid (stars : List StarRec) (scale : ℚ) : List StarRec :=
  ((cellMapOf stars scale).filter (fun kc => ¬ kc.2.isEmpty)).map
    (fun kc => chooseSurvivor kc.2)

/-- Python `l[1:stop]` (slice semantics including a negative stop). -/
def pySlice1 {α : Type} (l : List α) (stop : Int) : List α :=
  let n : Int := l.length
  let st := if stop < 0 then max 0 (n + stop) else min stop n
  (l.take st.toNat).drop 1

/-- Model of `select_stars_within_radius(stars, radius_ly, max_stars)`: keep stars
within the radius, sort ascending by distance (stably, like Python's sort),
cap the count keeping the nearest, and flag the nearest as Sol. -/
def select_stars_within_radius (stars : List StarRec) (radius_ly : ℚ)
    (max_stars : Int) : List StarRec :=
  let within := stars.filter (fun s => s.dist_ly ≤ radius_ly)
  if within.isEmpty then []
  else
    let sorted := within.mergeSort (fun a b => a.dist_ly ≤ b.dist_ly)
    let result :=
      if max_stars < (sorted.length : Int) then
        sorted.take 1 ++ pySlice1 sorted max_stars
      else sorted
    match result with
    | [] => []
    | sol :: others => { sol with is_sol := true } :: others

/-- The pure data/control skeleton of `main()` in the catalog builder: the
fatal checks in source order, short-circuiting with an error before any
output exists.  `.ok` carries the survivor list handed to `write_star_csv`
and `write_ascii_map`, i.e. an output file is committed only on the `.ok`
path. -/
def catalog_main (rows : List StarRec) (radius_ly : ℚ) (max_stars : Int)
    (scale : ℚ) : Except String (List StarRec) :=
  if scale ≤ 0 then Except.error ("scale must be positive")
  else
    let stars := select_stars_within_radius rows radius_ly max_stars
    if stars.isEmpty then Except.error ("no stars found within radius")
    else
      let survivors := project_to_grid stars scale
      if survivors.isEmpty then
        Except.error ("all stars pruned during projection")
      else Except.ok survivors

/-! ## Auxiliary definitions used by the theorem statements -/

/-- Sum of the first `k` weights of a table (the "running cumulative weight"
after `k` entries). -/
def psum {α : Type} (table : List (α × ℚ)) (k : Nat) : ℚ :=
  ((table.take k).map Prod.snd).sum

/-- The four attribute fields of an object, in source tuple order. -/
def attrsOf (o : CelestialObject) : Int × Int × Nat × Nat :=
  (o.habitability, o.risk, o.ore_richness, o.fuel_richness)

/-- The identity/hierarchy fields of an object (everything except `name` and
the four derived attributes). -/
def coreOf (o : CelestialObject) :
    Nat × Nat × String × Option Nat × Nat :=
  (o.system_id, o.object_id, o.class_code, o.parent_object_id, o.is_moon)

/-- Core-field agreement between two objects. -/
def sameCore (a b : CelestialObject) : Prop := coreOf a = coreOf b

/-- Classes eligible to host moons (the key set of `MAX_MOONS_PER_CLASS`). -/
def moonHostClasses : List String := ["RP", "DP", "IC", "GG"]

/-- Classes produced by `generate_planet_type` (the support of
`PLANET_TYPE_DISTRIBUTION`). -/
def planetClasses : List String := ["RP", "DP", "IC", "GG"]

/-- The moon-hierarchy invariant of claim C3, relative to a fixed object
list: every moon points (via `parent_object_id`) at an earlier position
holding a non-moon whose class may host moons. -/
def MoonInv (l : List CelestialObject) : Prop :=
  ∀ o ∈ l, o.is_moon = 1 →
    ∃ pid p, o.parent_object_id = some pid ∧ pid < o.object_id ∧
      l.get? pid = some p ∧ p.is_moon = 0 ∧ p.class_code ∈ moonHostClasses

/-- A concrete deterministic stream state (used to instantiate witnesses). -/
def constRS : RState := ⟨fun _ => 0, fun _ => 0, 0, 0⟩

/-- A concrete `random.Random` model mapping every seed to `constRS`. -/
def constROF : Nat → RState := fun _ => constRS

/-- A concrete stream state drawing `1/2` forever. -/
def halfRS : RState := ⟨fun _ => 1/2, fun _ => 0, 0, 0⟩

/-- A concrete `random.Random` model mapping every seed to `halfRS`. -/
def halfROF : Nat → RState := fun _ => halfRS

/-- Counterexample star for claim C2: magnitude data only, `mag = 5`
(a dim but perfectly ordinary apparent magnitude). -/
def starWithMag : StarRec :=
  { proper := "", dist_ly := 10, x_ly := 0, y_ly := 0, spect := "",
    mag := some 5, lum := none, is_sol := false }

/-- Counterexample star for claim C2: neither luminosity nor magnitude,
distance 4 light-years. -/
def starNoData : StarRec :=
  { proper := "", dist_ly := 4, x_ly := 0, y_ly := 0, spect := "",
    mag := none, lum := none, is_sol := false }

/-- Witness star for claim C5: the flagged home star, off-center. -/
def solStar : StarRec :=
  { proper := "Sol", dist_ly := 0, x_ly := 0, y_ly := 0, spect := "G2V",
    mag := none, lum := some 1, is_sol := true }

/-- Witness star for claim C5: a bright named neighbour landing in the same
grid cell as the home star. -/
def rivalStar : StarRec :=
  { proper := "Sirius", dist_ly := 0, x_ly := 0, y_ly := 0, spect := "A1V",
    mag := some (-1), lum := some 25, is_sol := false }

/-! ## Helper lemmas -/

theorem clamp_lb (v lo hi : Int) : lo ≤ clamp v lo hi := le_max_left _ _

theorem clamp_ub (v lo hi : Int) (h : lo ≤ hi) : clamp v lo hi ≤ hi :=
  max_le h (min_le_left _ _)

theorem oreOf_le_three (c : String) (b : Nat) : oreOf c b ≤ 3 := by
  unfold oreOf; split_ifs <;> omega

theorem fuelOf_le_three (c : String) (b : Nat) : fuelOf c b ≤ 3 := by
  unfold fuelOf; split_ifs <;> omega

theorem oreOf_gg (b : Nat) : oreOf ("GG") b = 0 := by
  unfold oreOf
  rw [if_neg (by decide), if_neg (by decide)]

theorem fuelOf_gg (b : Nat) : fuelOf ("GG") b = 2 ∨ fuelOf ("GG") b = 3 := by
  unfold fuelOf
  rw [if_pos rfl]
  split_ifs <;> simp

/-! ## C4: attribute bounds -/

/-- C4.  For every `(system_id, object_id, class, spect)` input,
`compute_attributes` returns habitability and risk in `[0, 100]` and
ore- and fuel-richness in `[0, 3]` (they are naturals, hence `≥ 0`); for
class `GG` the ore richness is always `0` and the fuel richness is `2` or
`3`. -/
theorem compute_attributes_bounds (system_id object_id : Nat)
    (obj_class spect : String) :
    0 ≤ (compute_attributes system_id object_id obj_class spect).1 ∧
    (compute_attributes system_id object_id obj_class spect).1 ≤ 100 ∧
    0 ≤ (compute_attributes system_id object_id obj_class spect).2.1 ∧
    (compute_attributes system_id object_id obj_class spect).2.1 ≤ 100 ∧
    (compute_attributes system_id object_id obj_class spect).2.2.1 ≤ 3 ∧
    (compute_attributes system_id object_id obj_class spect).2.2.2 ≤ 3 ∧
    (obj_class = "GG" →
      (compute_attributes system_id object_id obj_class spect).2.2.1 = 0 ∧
      ((compute_attributes system_id object_id obj_class spect).2.2.2 = 2 ∨
       (compute_attributes system_id object_id obj_class spect).2.2.2 = 3)) := by
  simp only [compute_attributes]
  refine ⟨clamp_lb _ _ _, clamp_ub _ _ _ (by norm_num), clamp_lb _ _ _,
    clamp_ub _ _ _ (by norm_num), oreOf_le_three _ _, fuelOf_le_three _ _,
    fun hgg => ?_⟩
  subst hgg
  exact ⟨oreOf_gg _, fuelOf_gg _⟩

/-- C4 witness: the bounds instantiated at a concrete gas giant. -/
theorem compute_attributes_bounds_witness :
    0 ≤ (compute_attributes 7 2 ("GG") ("G2V")).1 ∧
    (compute_attributes 7 2 ("GG") ("G2V")).1 ≤ 100 ∧
    0 ≤ (compute_attributes 7 2 ("GG") ("G2V")).2.1 ∧
    (compute_attributes 7 2 ("GG") ("G2V")).2.1 ≤ 100 ∧
    (compute_attributes 7 2 ("GG") ("G2V")).2.2.1 ≤ 3 ∧
    (compute_attributes 7 2 ("GG") ("G2V")).2.2.2 ≤ 3 ∧
    ((("GG") : String) = "GG" →
      (compute_attributes 7 2 ("GG") ("G2V")).2.2.1 = 0 ∧
      ((compute_attributes 7 2 ("GG") ("G2V")).2.2.2 = 2 ∨
       (compute_attributes 7 2 ("GG") ("G2V")).2.2.2 = 3)) :=
  compute_attributes_bounds 7 2 ("GG") ("G2V")

/-! ## C1: the fixed home system -/

/-- C1.  Generating system 0 bypasses randomness entirely: for every
spectral string, seed, max-primaries value and random stream it returns
exactly the four objects Earth (RP), Luna (RM, moon of Earth), Mars (RP)
and Ceres (AS), in this order with these ids, independent of the seed, the
stream and the primary cap. -/
theorem home_system_fixed_scenario (system_name spect : String)
    (global_seed : Nat) (max_primaries : Int) (randomOf : Nat → RState) :
    ((generate_objects_for_system 0 system_name spect global_seed
        max_primaries randomOf).map
      (fun o => (o.object_id, o.name, o.class_code, o.parent_object_id,
        o.is_moon)) =
      [(0, "Earth", "RP", none, 0), (1, "Luna", "RM", some 0, 1),
       (2, "Mars", "RP", none, 0), (3, "Ceres", "AS", none, 0)]) ∧
    ∀ (gs : Nat) (mp : Int) (rof : Nat → RState),
      generate_objects_for_system 0 system_name spect global_seed
        max_primaries randomOf =
      generate_objects_for_system 0 system_name spect gs mp rof := by
  exact ⟨rfl, fun gs mp rof => rfl⟩

/-! ## C9: fatal exits precede all output -/

/-- C9.  If the radius/max-stars selection leaves no stars, or projection
and collision pruning leave no survivors, the catalog builder's main
pipeline terminates with a fatal error; the survivor payload handed to the
two output writers exists only on the `.ok` path, so no output is
committed. -/
theorem fatal_before_output (rows : List StarRec) (radius_ly : ℚ)
    (max_stars : Int) (scale : ℚ)
    (h : select_stars_within_radius rows radius_ly max_stars = [] ∨
      project_to_grid (select_stars_within_radius rows radius_ly max_stars)
        scale = []) :
    ∃ msg, catalog_main rows radius_ly max_stars scale =
      Except.error msg := by
  unfold catalog_main
  dsimp only
  split_ifs with h1 h2 h3
  · exact ⟨_, rfl⟩
  · exact ⟨_, rfl⟩
  · exact ⟨_, rfl⟩
  · exfalso
    rcases h with h | h
    · rw [h] at h2; simp at h2
    · rw [h] at h3; simp at h3

/-- C9 witness: an empty input table yields a fatal error. -/
theorem fatal_before_output_witness :
    ∃ msg, catalog_main [] 1 5 1 = Except.error msg :=
  fatal_before_output [] 1 5 1 (Or.inl rfl)

/-! ## C2: the size-metric ordering -/

/-- C2 counterexample.  The claim says a star with only magnitude data
always outranks one with neither luminosity nor magnitude.  At `mag = 5`
(metric `(0, -5, 0)`) versus a data-less star at distance 4 (metric
`(0, 0, -4)`) the data-less star is strictly larger in the lexicographic
order, because the fallback branch writes `metric1 = 0.0`, which exceeds
any negated positive magnitude. -/
theorem size_metric_claim_counterexample :
    starWithMag.lum = none ∧ starWithMag.mag = some 5 ∧
    starNoData.lum = none ∧ starNoData.mag = none ∧
    metricLt (size_metric starNoData) (size_metric starWithMag) = false ∧
    metricLt (size_metric starWithMag) (size_metric starNoData) = true := by
  refine ⟨rfl, rfl, rfl, rfl, ?_, ?_⟩ <;> decide

/-- C2 amended.  A star with parseable luminosity always outranks one
without (whatever the other's magnitude or distance); a star with only
magnitude data outranks one with neither luminosity nor magnitude exactly
when its magnitude is negative, or zero while the other's distance is
positive — for a positive magnitude the data-less star outranks it. -/
theorem size_metric_order_amended (a b : StarRec) (hb : b.lum = none) :
    (∀ l, a.lum = some l →
      metricLt (size_metric b) (size_metric a) = true) ∧
    (∀ m, a.lum = none → a.mag = some m → b.mag = none →
      (metricLt (size_metric b) (size_metric a) = true ↔
        (m < 0 ∨ (m = 0 ∧ 0 < b.dist_ly)))) := by
  constructor
  · intro l hl
    rcases hbm : b.mag with _ | m <;>
      simp [size_metric, metricLt, hb, hl, hbm]
  · intro m ha hm hbm
    simp only [size_metric, hb, ha, hm, hbm, metricLt]
    simp [neg_pos, eq_comm (a := (0 : ℚ)), neg_eq_zero, neg_lt_zero]

/-- C2 witness: the amended ordering applied to the concrete magnitude-5
versus data-less pair. -/
theorem size_metric_order_amended_witness :
    (∀ l, starWithMag.lum = some l →
      metricLt (size_metric starNoData) (size_metric starWithMag) = true) ∧
    (∀ m, starWithMag.lum = none → starWithMag.mag = some m →
      starNoData.mag = none →
      (metricLt (size_metric starNoData) (size_metric starWithMag) = true ↔
        (m < 0 ∨ (m = 0 ∧ 0 < starNoData.dist_ly)))) :=
  size_metric_order_amended starWithMag starNoData rfl

/-! ## C8: weighted cumulative-sum selection -/

theorem psum_zero {α : Type} (t : List (α × ℚ)) : psum t 0 = 0 := by
  simp [psum]

theorem psum_cons_succ {α : Type} (v : α) (w : ℚ) (t : List (α × ℚ))
    (k : Nat) : psum ((v, w) :: t) (k + 1) = w + psum t k := by
  simp [psum]

/-- Complete case analysis of the accumulator loop: either it stops at the
first index whose running cumulative weight reaches `r`, or no prefix sum
reaches `r` and it returns `none`. -/
theorem cumFirst_cases {α : Type} (r : ℚ) :
    ∀ (t : List (α × ℚ)) (acc : ℚ),
      (∃ k x, t.get? k = some x ∧
        (∀ j, j < k → ¬ r ≤ acc + psum t (j + 1)) ∧
        r ≤ acc + psum t (k + 1) ∧ cumFirst r acc t = some x.1) ∨
      ((∀ j, j < t.length → ¬ r ≤ acc + psum t (j + 1)) ∧
        cumFirst r acc t = none) := by
  intro t
  induction t with
  | nil =>
      intro acc
      exact Or.inr ⟨fun j hj => absurd hj (by simp), rfl⟩
  | cons vw t ih =>
      intro acc
      obtain ⟨v, w⟩ := vw
      by_cases h : r ≤ acc + w
      · refine Or.inl ⟨0, (v, w), rfl, fun j hj => absurd hj (Nat.not_lt_zero _),
          ?_, by simp [cumFirst, h]⟩
        simpa [psum_cons_succ, psum_zero] using h
      · rcases ih (acc + w) with ⟨k, x, hx, hfirst, hle, hcum⟩ | ⟨hall, hcum⟩
        · refine Or.inl ⟨k + 1, x, by simpa using hx, ?_, ?_, ?_⟩
          · intro j hj
            match j with
            | 0 => simpa [psum_cons_succ, psum_zero] using h
            | j' + 1 =>
                have := hfirst j' (by omega)
                simpa [psum_cons_succ, add_assoc] using this
          · simpa [psum_cons_succ, add_assoc] using hle
          · simpa [cumFirst, h] using hcum
        · refine Or.inr ⟨?_, by simpa [cumFirst, h] using hcum⟩
          intro j hj
          match j with
          | 0 => simpa [psum_cons_succ, psum_zero] using h
          | j' + 1 =>
              have := hall j' (by simpa using hj)
              simpa [psum_cons_succ, add_assoc] using this

/-- The selected value is always the first component of some table entry. -/
theorem weightedPickD_mem {α : Type} (r : ℚ) (t : List (α × ℚ)) (d : α)
    (h : t ≠ []) : weightedPickD r t d ∈ t.map Prod.fst := by
  unfold weightedPickD
  rcases cumFirst_cases r t 0 with ⟨k, x, hx, _, _, hcum⟩ | ⟨_, hcum⟩
  · rw [hcum]
    exact List.mem_map_of_mem _ (List.get?_mem hx)
  · rw [hcum, List.getLast?_eq_getLast t h]
    exact List.mem_map_of_mem _ (List.getLast_mem h)

/-- C8.  `choose_weighted` is total on non-empty tables and implements
cumulative-sum threshold selection: the drawn value is
`uniform(0, total)`; for any draw `r`, if some entry's running cumulative
weight reaches `r` then the first such entry's value is returned; if no
prefix sum reaches `r` (the floating-point edge) the last entry's value is
returned; and the result is always the value of some entry. -/
theorem choose_weighted_total_spec (table : List (Int × ℚ))
    (h : table ≠ []) (r : ℚ) :
    (∀ s, choose_weighted s table =
      (weightedPickD (0 + (tableTotal table - 0) * s.rngStream s.fpos)
        table 0, { s with fpos := s.fpos + 1 })) ∧
    weightedPickD r table 0 ∈ table.map Prod.fst ∧
    (∀ k x, table.get? k = some x → r ≤ psum table (k + 1) →
      (∀ j, j < k → ¬ r ≤ psum table (j + 1)) →
      weightedPickD r table 0 = x.1) ∧
    ((∀ j, j < table.length → ¬ r ≤ psum table (j + 1)) →
      some (weightedPickD r table 0) = (table.getLast?).map Prod.fst) := by
  refine ⟨fun s => rfl, weightedPickD_mem r table 0 h, ?_, ?_⟩
  · intro k x hx hle hmin
    unfold weightedPickD
    rcases cumFirst_cases r table 0 with
      ⟨k', x', hx', hfirst, hle', hcum⟩ | ⟨hall, hcum⟩
    · rw [hcum]
      have hkk : k = k' := by
        rcases Nat.lt_trichotomy k k' with hlt | heq | hgt
        · exact absurd (by simpa using hle) (by simpa using hfirst k hlt)
        · exact heq
        · exact absurd (by simpa using hle') (by simpa using hmin k' hgt)
      subst hkk
      rw [hx] at hx'
      simp_all
    · exact absurd (by simpa using hle)
        (by simpa using hall k (List.get?_eq_some.mp hx).1)
  · intro hall
    unfold weightedPickD
    rcases cumFirst_cases r table 0 with
      ⟨k, x, hx, _, hle, _⟩ | ⟨_, hcum⟩
    · exact absurd (by simpa using hle)
        (by simpa using hall k (List.get?_eq_some.mp hx).1)
    · rw [hcum, List.getLast?_eq_getLast table h]
      simp

/-- C8 witness: the specification applied to the concrete primary-count
table at draw `r = 1/2`. -/
theorem choose_weighted_total_spec_witness :
    (∀ s, choose_weighted s OBJECT_COUNT_DISTRIBUTION =
      (weightedPickD
        (0 + (tableTotal OBJECT_COUNT_DISTRIBUTION - 0) * s.rngStream s.fpos)
        OBJECT_COUNT_DISTRIBUTION 0, { s with fpos := s.fpos + 1 })) ∧
    weightedPickD (1/2) OBJECT_COUNT_DISTRIBUTION 0 ∈
      OBJECT_COUNT_DISTRIBUTION.map Prod.fst ∧
    (∀ k x, OBJECT_COUNT_DISTRIBUTION.get? k = some x →
      (1/2 : ℚ) ≤ psum OBJECT_COUNT_DISTRIBUTION (k + 1) →
      (∀ j, j < k → ¬ (1/2 : ℚ) ≤ psum OBJECT_COUNT_DISTRIBUTION (j + 1)) →
      weightedPickD (1/2) OBJECT_COUNT_DISTRIBUTION 0 = x.1) ∧
    ((∀ j, j < OBJECT_COUNT_DISTRIBUTION.length →
      ¬ (1/2 : ℚ) ≤ psum OBJECT_COUNT_DISTRIBUTION (j + 1)) →
      some (weightedPickD (1/2) OBJECT_COUNT_DISTRIBUTION 0) =
        (OBJECT_COUNT_DISTRIBUTION.getLast?).map Prod.fst) :=
  choose_weighted_total_spec OBJECT_COUNT_DISTRIBUTION (by decide) (1/2)

/-! ## Core-field preservation machinery -/

theorem sameCore_refl (a : CelestialObject) : sameCore a a := rfl

theorem sameCore_trans {a b c : CelestialObject} (h1 : sameCore a b)
    (h2 : sameCore b c) : sameCore a c := h1.trans h2

theorem sameCore_fields {a b : CelestialObject} (h : sameCore a b) :
    a.system_id = b.system_id ∧ a.object_id = b.object_id ∧
    a.class_code = b.class_code ∧ a.parent_object_id = b.parent_object_id ∧
    a.is_moon = b.is_moon := by
  simpa [sameCore, coreOf, Prod.ext_iff] using h

theorem forall₂_core_refl (l : List CelestialObject) :
    List.Forall₂ sameCore l l := by
  induction l with
  | nil => exact List.Forall₂.nil
  | cons a t ih => exact List.Forall₂.cons (sameCore_refl a) ih

theorem forall₂_core_trans :
    ∀ {l₁ l₂ l₃ : List CelestialObject}, List.Forall₂ sameCore l₁ l₂ →
      List.Forall₂ sameCore l₂ l₃ → List.Forall₂ sameCore l₁ l₃ := by
  intro l₁ l₂ l₃ h1 h2
  induction h1 generalizing l₃ with
  | nil => cases h2; exact List.Forall₂.nil
  | cons hab htail ih =>
      cases h2 with
      | cons hbc h2tail =>
          exact List.Forall₂.cons (sameCore_trans hab hbc) (ih h2tail)

theorem forall₂_core_append {l₁ l₂ m₁ m₂ : List CelestialObject}
    (h : List.Forall₂ sameCore l₁ l₂) (h' : List.Forall₂ sameCore m₁ m₂) :
    List.Forall₂ sameCore (l₁ ++ m₁) (l₂ ++ m₂) := by
  induction h with
  | nil => exact h'
  | cons hab htail ih => exact List.Forall₂.cons hab ih

/-- Transfer a `get?` fact from the right list to the left one. -/
theorem forall₂_core_get? :
    ∀ {l₁ l₂ : List CelestialObject}, List.Forall₂ sameCore l₁ l₂ →
      ∀ i x, l₂.get? i = some x →
        ∃ y, l₁.get? i = some y ∧ sameCore y x := by
  intro l₁ l₂ h
  induction h with
  | nil => intro i x hx; simp at hx
  | cons hab htail ih =>
      intro i x hx
      match i with
      | 0 =>
          refine ⟨_, rfl, ?_⟩
          simp only [List.get?] at hx
          exact (Option.some.injEq _ _ ▸ hx) ▸ hab
      | i' + 1 => exact ih i' x hx

/-- Transfer a `get?` fact from the left list to the right one. -/
theorem forall₂_core_get?_left :
    ∀ {l₁ l₂ : List CelestialObject}, List.Forall₂ sameCore l₁ l₂ →
      ∀ i y, l₁.get? i = some y →
        ∃ x, l₂.get? i = some x ∧ sameCore y x := by
  intro l₁ l₂ h
  induction h with
  | nil => intro i y hy; simp at hy
  | cons hab htail ih =>
      intro i y hy
      match i with
      | 0 =>
          refine ⟨_, rfl, ?_⟩
          simp only [List.get?] at hy
          exact (Option.some.injEq _ _ ▸ hy) ▸ hab
      | i' + 1 => exact ih i' y hy

/-- Transfer membership from the left list to the right one. -/
theorem forall₂_core_mem {l₁ l₂ : List CelestialObject}
    (h : List.Forall₂ sameCore l₁ l₂) :
    ∀ o ∈ l₁, ∃ x ∈ l₂, sameCore o x := by
  induction h with
  | nil => intro o ho; simp at ho
  | cons hab htail ih =>
      intro o ho
      rcases List.mem_cons.mp ho with rfl | ho'
      · exact ⟨_, List.mem_cons_self _ _, hab⟩
      · rcases ih o ho' with ⟨x, hx, hcore⟩
        exact ⟨x, List.mem_cons_of_mem _ hx, hcore⟩

/-- Core-agreeing lists have identical counts for any core-measurable
predicate. -/
theorem forall₂_core_countP (p : CelestialObject → Bool)
    (hp : ∀ a b, sameCore a b → p a = p b) :
    ∀ {l₁ l₂ : List CelestialObject}, List.Forall₂ sameCore l₁ l₂ →
      l₁.countP p = l₂.countP p := by
  intro l₁ l₂ h
  induction h with
  | nil => rfl
  | cons hab htail ih =>
      simp only [List.countP_cons, ih, hp _ _ hab]

/-- Updating one position with a core-agreeing object preserves the
pointwise core relation. -/
theorem forall₂_core_set :
    ∀ (l : List CelestialObject) (i : Nat) (x y : CelestialObject),
      l.get? i = some x → sameCore y x →
      List.Forall₂ sameCore (l.set i y) l := by
  intro l
  induction l with
  | nil => intro i x y hx; simp at hx
  | cons a t ih =>
      intro i x y hx hxy
      match i with
      | 0 =>
          simp only [List.get?] at hx
          injection hx with hx
          subst hx
          exact List.Forall₂.cons hxy (forall₂_core_refl t)
      | i' + 1 =>
          exact List.Forall₂.cons (sameCore_refl a) (ih i' x y hx hxy)

theorem forall₂_core_attrUpdate (spect : String)
    (l : List CelestialObject) :
    List.Forall₂ sameCore (l.map (attrUpdate spect)) l := by
  induction l with
  | nil => exact List.Forall₂.nil
  | cons a t ih => exact List.Forall₂.cons rfl ih

theorem primaryNames_core (system_name : String) :
    ∀ (pidxl : List Nat) (objs : List CelestialObject) (idx : Nat)
      (pmap : List (Nat × String)),
      List.Forall₂ sameCore
        (primaryNames system_name objs pidxl idx pmap).1 objs := by
  intro pidxl
  induction pidxl with
  | nil => intro objs idx pmap; exact forall₂_core_refl objs
  | cons p rest ih =>
      intro objs idx pmap
      rw [primaryNames]
      cases hm : objs.get? p with
      | none => exact ih objs (idx + 1) pmap
      | some o =>
          exact forall₂_core_trans (ih _ (idx + 1) _)
            (forall₂_core_set objs p o _ hm rfl)

theorem moonNames_core (system_name : String) (pmap : List (Nat × String)) :
    ∀ (objs : List CelestialObject) (counters : List (Nat × Nat)),
      List.Forall₂ sameCore (moonNames system_name pmap objs counters)
        objs := by
  intro objs
  induction objs with
  | nil => intro counters; exact List.Forall₂.nil
  | cons o rest ih =>
      intro counters
      rw [moonNames]
      split_ifs with h
      · exact List.Forall₂.cons (sameCore_refl o) (ih counters)
      · exact List.Forall₂.cons rfl (ih _)

theorem assign_names_core (system_name : String)
    (objs : List CelestialObject) (pidxl : List Nat) :
    List.Forall₂ sameCore (assign_names_for_system system_name objs pidxl)
      objs := by
  unfold assign_names_for_system
  exact forall₂_core_trans (moonNames_core _ _ _ _) (primaryNames_core _ _ _ _ _)

/-! ## Structural facts about the generator pipeline -/

theorem generate_planet_type_mem (s : RState) :
    (generate_planet_type s).1 ∈ planetClasses := by
  have h := weightedPickD_mem
    (0 + (tableTotal PLANET_TYPE_DISTRIBUTION - 0) * s.rngStream s.fpos)
    PLANET_TYPE_DISTRIBUTION ("") (by decide)
  simpa [generate_planet_type, pyuniform, pyrandom, planetClasses,
    PLANET_TYPE_DISTRIBUTION] using h

theorem choose_moon_class_mem (s : RState) (pc : String) :
    (choose_moon_class s pc).1 ∈ (["RM", "IM"] : List String) := by
  unfold choose_moon_class
  split_ifs with h
  · have := weightedPickD_mem
      (0 + (tableTotal MOON_TYPES_GG - 0) * s.rngStream s.fpos)
      MOON_TYPES_GG ("") (by decide)
    simpa [pyuniform, pyrandom, MOON_TYPES_GG] using this
  · have := weightedPickD_mem
      (0 + (tableTotal MOON_TYPES_ROCKY - 0) * s.rngStream s.fpos)
      MOON_TYPES_ROCKY ("") (by decide)
    simpa [pyuniform, pyrandom, MOON_TYPES_ROCKY] using this

theorem alookup_moons_mem (c : String) (m : Nat)
    (h : alookup c MAX_MOONS_PER_CLASS = some m) : c ∈ moonHostClasses := by
  simp only [MAX_MOONS_PER_CLASS, alookup] at h
  split_ifs at h <;> simp_all [moonHostClasses]

theorem genPrimaries_length (sid : Nat) :
    ∀ (n start : Nat) (s : RState),
      (genPrimaries sid start n s).1.length = n := by
  intro n
  induction n with
  | zero => intro start s; rfl
  | succ n ih =>
      intro start s
      rw [genPrimaries]
      simp [ih (start + 1) (generate_planet_type s).2]

theorem genPrimaries_get? (sid : Nat) :
    ∀ (n start : Nat) (s : RState) (i : Nat) (x : CelestialObject),
      (genPrimaries sid start n s).1.get? i = some x →
      x.system_id = sid ∧ x.object_id = start + i ∧
      x.parent_object_id = none ∧ x.is_moon = 0 ∧ x.name = "" ∧
      x.class_code ∈ planetClasses := by
  intro n
  induction n with
  | zero => intro start s i x hx; simp [genPrimaries] at hx
  | succ n ih =>
      intro start s i x hx
      rw [genPrimaries] at hx
      dsimp only at hx
      match i with
      | 0 =>
          simp only [List.get?] at hx
          injection hx with hx
          subst hx
          exact ⟨rfl, by simp, rfl, rfl, rfl, generate_planet_type_mem s⟩
      | i' + 1 =>
          simp only [List.get?] at hx
          obtain ⟨ha, hb, hc, hd, he, hf⟩ :=
            ih (start + 1) (generate_planet_type s).2 i' x hx
          exact ⟨ha, by omega, hc, hd, he, hf⟩

theorem genMoons_mem (sid pidx : Nat) (pc : String) :
    ∀ (n start : Nat) (s : RState) (o : CelestialObject),
      o ∈ (genMoons sid pidx pc start n s).1 →
      o.is_moon = 1 ∧ o.parent_object_id = some pidx ∧
      start ≤ o.object_id ∧ o.system_id = sid := by
  intro n
  induction n with
  | zero => intro start s o ho; simp [genMoons] at ho
  | succ n ih =>
      intro start s o ho
      rw [genMoons] at ho
      dsimp only at ho
      rcases List.mem_cons.mp ho with rfl | ho'
      · exact ⟨rfl, rfl, le_refl _, rfl⟩
      · obtain ⟨ha, hb, hc, hd⟩ :=
          ih (start + 1) (choose_moon_class s pc).2 o ho'
        exact ⟨ha, hb, by omega, hd⟩

theorem countP_set_le {α : Type} (p : α → Bool) :
    ∀ (l : List α) (i : Nat) (y : α),
      (l.set i y).countP p ≤ l.countP p + 1 := by
  intro l
  induction l with
  | nil => intro i y; simp
  | cons a t ih =>
      intro i y
      match i with
      | 0 =>
          simp only [List.set, List.countP_cons]
          split_ifs <;> omega
      | i' + 1 =>
          simp only [List.set, List.countP_cons]
          have := ih i' y
          split_ifs <;> omega

/-- The function `asteroidSub` either leaves the list unchanged or (only when at least
two primary indices exist) reclassifies exactly one existing position as
`AS`. -/
theorem asteroidSub_cases (objs : List CelestialObject) (pidx : List Nat)
    (s : RState) :
    (asteroidSub objs pidx s).1 = objs ∨
    (2 ≤ pidx.length ∧ ∃ i x, objs.get? i = some x ∧
      (asteroidSub objs pidx s).1 =
        objs.set i { x with class_code := "AS" }) := by
  simp only [asteroidSub]
  split_ifs with h1 h2
  · split
    next o hg => exact Or.inr ⟨h1, _, o, hg, rfl⟩
    next hg => exact Or.inl rfl
  · exact Or.inl rfl
  · exact Or.inl rfl

/-- The moon phase only appends objects: each appended object is a moon,
and the combined list satisfies the hierarchy invariant provided the input
does and every parent index named in `plist` points at a non-moon. -/
theorem moonPhase_inv (sid : Nat) :
    ∀ (plist : List Nat) (objs : List CelestialObject) (s : RState),
      (∀ q ∈ plist, ∃ p, objs.get? q = some p ∧ p.is_moon = 0) →
      MoonInv objs →
      ∃ extra, (moonPhase sid plist objs s).1 = objs ++ extra ∧
        (∀ o ∈ extra, o.is_moon = 1) ∧ MoonInv (objs ++ extra) := by
  intro plist
  induction plist with
  | nil =>
      intro objs s hp hInv
      exact ⟨[], by simp [moonPhase], by simp, by simpa using hInv⟩
  | cons q rest ih =>
      intro objs s hp hInv
      rw [moonPhase]
      split
      next hq =>
        exact ih objs s (fun q' hq' => hp q' (List.mem_cons_of_mem _ hq'))
          hInv
      next parent hq =>
        split
        next hlk =>
          exact ih objs s (fun q' hq' => hp q' (List.mem_cons_of_mem _ hq'))
            hInv
        next m hlk =>
          dsimp only
          set nm := choose_num_moons s parent.class_code with hnm
          set moons :=
            genMoons sid q parent.class_code objs.length nm.1 nm.2
            with hmoons
          have hmoon_facts : ∀ o ∈ moons.1, o.is_moon = 1 ∧
              o.parent_object_id = some q ∧ objs.length ≤ o.object_id ∧
              o.system_id = sid :=
            fun o ho => genMoons_mem sid q parent.class_code nm.1
              objs.length nm.2 o ho
          have hqlen : q < objs.length := (List.get?_eq_some.mp hq).1
          have hparent0 : parent.is_moon = 0 := by
            rcases hp q (List.mem_cons_self _ _) with ⟨p, hpq, hpm⟩
            rw [hq] at hpq
            injection hpq with hpq
            rw [hpq]
            exact hpm
          -- parent lookups survive the append
          have happend_get : ∀ (i : Nat) (x : CelestialObject),
              objs.get? i = some x →
              (objs ++ moons.1).get? i = some x := by
            intro i x hx
            rw [List.get?_append (List.get?_eq_some.mp hx).1]
            exact hx
          have hp' : ∀ q' ∈ rest, ∃ p,
              (objs ++ moons.1).get? q' = some p ∧ p.is_moon = 0 := by
            intro q' hq'
            rcases hp q' (List.mem_cons_of_mem _ hq') with ⟨p, hpq, hpm⟩
            exact ⟨p, happend_get q' p hpq, hpm⟩
          have hInv' : MoonInv (objs ++ moons.1) := by
            intro o ho hom
            rcases List.mem_append.mp ho with ho1 | ho2
            · rcases hInv o ho1 hom with
                ⟨pid, p, hpar, hlt, hget, hpm, hpc⟩
              exact ⟨pid, p, hpar, hlt, happend_get pid p hget, hpm, hpc⟩
            · obtain ⟨_, hpar, hsize, _⟩ := hmoon_facts o ho2
              refine ⟨q, parent, hpar, by omega, happend_get q parent hq,
                hparent0, alookup_moons_mem _ m hlk⟩
          rcases ih (objs ++ moons.1) moons.2 hp' hInv' with
            ⟨extra', heq, hmoons', hinv'⟩
          refine ⟨moons.1 ++ extra', ?_, ?_, ?_⟩
          · rw [heq, List.append_assoc]
          · intro o ho
            rcases List.mem_append.mp ho with ho1 | ho2
            · exact (hmoon_facts o ho1).1
            · exact hmoons' o ho2
          · rw [← List.append_assoc]
            exact hinv'

/-- Structure of a non-home generated system before the attribute pass:
either the system is empty, or the object list core-agrees with
`objs1 ++ extra` where `objs1` holds exactly the `n ≤ max_primaries`
primaries (ids positional, no moons, at most one reclassified asteroid —
and only when `n ≥ 2`) and `extra` holds only moons satisfying the
hierarchy invariant. -/
theorem preObjects_struct (sid : Nat) (name : String) (seed : Nat)
    (maxp : Int) (rof : Nat → RState) (hsid : sid ≠ 0) :
    preObjects sid name seed maxp rof = [] ∨
    ∃ (n : Nat) (objs1 extra : List CelestialObject),
      0 < maxp ∧ (n : Int) ≤ maxp ∧
      List.Forall₂ sameCore (preObjects sid name seed maxp rof)
        (objs1 ++ extra) ∧
      objs1.length = n ∧
      (∀ o ∈ objs1, o.is_moon = 0) ∧
      objs1.countP (fun o => o.is_moon == 0 && o.class_code == "AS") ≤ 1 ∧
      ((∃ o ∈ objs1, o.class_code = "AS") → 2 ≤ n) ∧
      (∀ o ∈ extra, o.is_moon = 1) ∧
      MoonInv (objs1 ++ extra) := by
  rw [preObjects, if_neg hsid]
  dsimp only
  split_ifs with hb
  · exact Or.inl rfl
  · push_neg at hb
    obtain ⟨hb1, hb2⟩ := hb
    right
    set cw := choose_weighted (rof (Nat.xor seed (sid * 0x9E3779B1)))
      OBJECT_COUNT_DISTRIBUTION with hcw
    set n := (min cw.1 maxp).toNat with hn
    set gp := genPrimaries sid 0 n cw.2 with hgp
    set sub := asteroidSub gp.1 (List.range n) gp.2 with hsubdef
    -- facts about the primaries
    have hplen : gp.1.length = n := genPrimaries_length sid n 0 cw.2
    have hpget : ∀ i x, gp.1.get? i = some x →
        x.object_id = i ∧ x.is_moon = 0 ∧ x.class_code ∈ planetClasses := by
      intro i x hx
      obtain ⟨_, hb', _, hd', _, hf'⟩ := genPrimaries_get? sid n 0 cw.2 i x hx
      exact ⟨by omega, hd', hf'⟩
    have hpAS : gp.1.countP
        (fun o => o.is_moon == 0 && o.class_code == "AS") = 0 := by
      rw [List.countP_eq_zero]
      intro o ho
      rcases List.get?_of_mem ho with ⟨i, hi⟩
      have hcls := (hpget i o hi).2.2
      have : o.class_code ≠ "AS" := by
        intro hcontra
        rw [hcontra] at hcls
        simp [planetClasses] at hcls
      simp [this]
    -- facts about the post-substitution list
    have hslen : sub.1.length = n := by
      rcases asteroidSub_cases gp.1 (List.range n) gp.2 with hcase | hcase
      · rw [← hsubdef] at hcase
        rw [hcase, hplen]
      · obtain ⟨_, i, x, _, hset⟩ := hcase
        rw [← hsubdef] at hset
        rw [hset, List.length_set, hplen]
    have hsget : ∀ i x, sub.1.get? i = some x →
        x.object_id = i ∧ x.is_moon = 0 := by
      intro i x hx
      rcases asteroidSub_cases gp.1 (List.range n) gp.2 with hcase | hcase
      · rw [← hsubdef] at hcase
        rw [hcase] at hx
        exact ⟨(hpget i x hx).1, (hpget i x hx).2.1⟩
      · obtain ⟨_, j, y, hy, hset⟩ := hcase
        rw [← hsubdef] at hset
        rw [hset] at hx
        by_cases hij : j = i
        · subst hij
          rw [List.get?_set_eq, hy] at hx
          simp at hx
          subst hx
          exact ⟨(hpget j y hy).1, (hpget j y hy).2.1⟩
        · rw [List.get?_set_ne _ _ hij] at hx
          exact ⟨(hpget i x hx).1, (hpget i x hx).2.1⟩
    have hsmem : ∀ o ∈ sub.1, o.is_moon = 0 := by
      intro o ho
      rcases List.get?_of_mem ho with ⟨i, hi⟩
      exact (hsget i o hi).2
    have hscount : sub.1.countP
        (fun o => o.is_moon == 0 && o.class_code == "AS") ≤ 1 := by
      rcases asteroidSub_cases gp.1 (List.range n) gp.2 with hcase | hcase
      · rw [← hsubdef] at hcase
        rw [hcase, hpAS]
        omega
      · obtain ⟨_, j, y, hy, hset⟩ := hcase
        rw [← hsubdef] at hset
        rw [hset]
        have := countP_set_le
          (fun o => o.is_moon == 0 && o.class_code == "AS") gp.1 j
          { y with class_code := "AS" }
        omega
    have hsAS : (∃ o ∈ sub.1, o.class_code = "AS") → 2 ≤ n := by
      rintro ⟨o, ho, hAS⟩
      rcases asteroidSub_cases gp.1 (List.range n) gp.2 with hcase | hcase
      · rw [← hsubdef] at hcase
        rw [hcase] at ho
        rcases List.get?_of_mem ho with ⟨i, hi⟩
        have hcls := (hpget i o hi).2.2
        rw [hAS] at hcls
        simp [planetClasses] at hcls
      · obtain ⟨h2n, _⟩ := hcase
        simpa using h2n
    -- the moon phase
    have hp : ∀ q ∈ List.range n, ∃ p, sub.1.get? q = some p ∧
        p.is_moon = 0 := by
      intro q hq
      have hqn : q < sub.1.length := by
        rw [hslen]; exact List.mem_range.mp hq
      rcases List.get?_eq_some.mpr ⟨hqn, rfl⟩ with hg
      exact ⟨_, hg, (hsget q _ hg).2⟩
    have hInv0 : MoonInv sub.1 := by
      intro o ho hom
      rw [hsmem o ho] at hom
      cases hom
    obtain ⟨extra, heqmp, hextra, hinv⟩ :=
      moonPhase_inv sid (List.range n) sub.1 sub.2 hp hInv0
    refine ⟨n, sub.1, extra, hb2, ?_, ?_, hslen, hsmem, hscount, hsAS,
      hextra, hinv⟩
    · have h0 : (0 : Int) ≤ min cw.1 maxp :=
        le_min (le_of_lt hb1) (le_of_lt hb2)
      rw [hn, Int.toNat_of_nonneg h0]
      exact min_le_right _ _
    · rw [heqmp]
      exact assign_names_core name (sub.1 ++ extra) (List.range n)

/-! ## C3, C6, C10: hierarchy, budget and asteroid invariants -/

theorem moonInv_transfer {l₁ l₂ : List CelestialObject}
    (h : List.Forall₂ sameCore l₁ l₂) (hInv : MoonInv l₂) : MoonInv l₁ := by
  intro o ho hm
  rcases List.get?_of_mem ho with ⟨i, hi⟩
  obtain ⟨x, hx, hcore⟩ := forall₂_core_get?_left h i o hi
  obtain ⟨hsid, hoid, hcls, hpar, hmoon⟩ := sameCore_fields hcore
  have hxm : x.is_moon = 1 := by rw [← hmoon]; exact hm
  obtain ⟨pid, p, hpar2, hlt, hget, hpm, hpc⟩ :=
    hInv x (List.get?_mem hx) hxm
  obtain ⟨p1, hp1, hp1core⟩ := forall₂_core_get? h pid p hget
  obtain ⟨_, _, hp1cls, _, hp1m⟩ := sameCore_fields hp1core
  exact ⟨pid, p1, by rw [hpar]; exact hpar2, by rw [hoid]; exact hlt, hp1,
    by rw [hp1m]; exact hpm, by rw [hp1cls]; exact hpc⟩

theorem moonInv_sol : MoonInv solObjects := by
  intro o ho hm
  simp only [solObjects, List.mem_cons, List.not_mem_nil, or_false] at ho
  rcases ho with rfl | rfl | rfl | rfl
  · simp at hm
  · exact ⟨0, _, rfl, by decide, rfl, rfl, by decide⟩
  · simp at hm
  · simp at hm

theorem moonInv_generate (system_id : Nat) (system_name spect : String)
    (global_seed : Nat) (max_primaries : Int) (randomOf : Nat → RState) :
    MoonInv (generate_objects_for_system system_id system_name spect
      global_seed max_primaries randomOf) := by
  apply moonInv_transfer
    (forall₂_core_attrUpdate spect
      (preObjects system_id system_name global_seed max_primaries randomOf))
  by_cases hsid : system_id = 0
  · subst hsid
    have hpre : preObjects 0 system_name global_seed max_primaries randomOf =
        solObjects := rfl
    rw [hpre]
    exact moonInv_sol
  · rcases preObjects_struct system_id system_name global_seed max_primaries
      randomOf hsid with hpre |
      ⟨n, objs1, extra, _, _, hfa, _, _, _, _, _, hminv⟩
    · rw [hpre]
      intro o ho hm
      simp at ho
    · exact moonInv_transfer hfa hminv

/-- C3.  Every moon emitted by `generate_objects_for_system` points at an
earlier object of the same returned list (its position equals the parent
id), which is not itself a moon and whose class is one of RP/DP/IC/GG; in
particular no AS-class object is ever a moon's parent. -/
theorem moon_parent_invariant (system_id : Nat) (system_name spect : String)
    (global_seed : Nat) (max_primaries : Int) (randomOf : Nat → RState)
    (o : CelestialObject)
    (ho : o ∈ generate_objects_for_system system_id system_name spect
      global_seed max_primaries randomOf)
    (hm : o.is_moon = 1) :
    ∃ pid p, o.parent_object_id = some pid ∧ pid < o.object_id ∧
      (generate_objects_for_system system_id system_name spect global_seed
        max_primaries randomOf).get? pid = some p ∧
      p.is_moon = 0 ∧ p.class_code ∈ moonHostClasses :=
  moonInv_generate system_id system_name spect global_seed max_primaries
    randomOf o ho hm

/-- C3 witness: Luna in the home system, generated with a concrete stream. -/
theorem moon_parent_invariant_witness :
    ∃ pid p,
      ((generate_objects_for_system 0 ("Sol") ("G2V") 0 5 constROF).getD 1
        defaultObject).parent_object_id = some pid ∧
      pid < ((generate_objects_for_system 0 ("Sol") ("G2V") 0 5
        constROF).getD 1 defaultObject).object_id ∧
      (generate_objects_for_system 0 ("Sol") ("G2V") 0 5 constROF).get?
        pid = some p ∧
      p.is_moon = 0 ∧ p.class_code ∈ moonHostClasses :=
  moon_parent_invariant 0 ("Sol") ("G2V") 0 5 constROF _
    (List.get?_mem
      (show (generate_objects_for_system 0 ("Sol") ("G2V") 0 5
        constROF).get? 1 = some ((generate_objects_for_system 0 ("Sol")
        ("G2V") 0 5 constROF).getD 1 defaultObject) from rfl))
    rfl

/-- C6.  For a non-home system the count of non-moon objects never exceeds
`max_primaries`; with `max_primaries ≤ 0` the returned list is empty. -/
theorem primary_budget_respected (system_id : Nat)
    (system_name spect : String) (global_seed : Nat) (max_primaries : Int)
    (randomOf : Nat → RState) (hsid : system_id ≠ 0) :
    (max_primaries ≤ 0 → generate_objects_for_system system_id system_name
      spect global_seed max_primaries randomOf = []) ∧
    (((generate_objects_for_system system_id system_name spect global_seed
        max_primaries randomOf).countP (fun o => o.is_moon == 0) : Int) ≤
      max_primaries ∨
      generate_objects_for_system system_id system_name spect global_seed
        max_primaries randomOf = []) := by
  rcases preObjects_struct system_id system_name global_seed max_primaries
    randomOf hsid with hpre |
    ⟨n, objs1, extra, hmp, hnle, hfa, hlen, hm0, _, _, hextra, _⟩
  · have hgen : generate_objects_for_system system_id system_name spect
        global_seed max_primaries randomOf = [] := by
      unfold generate_objects_for_system
      rw [hpre]
      rfl
    exact ⟨fun _ => hgen, Or.inr hgen⟩
  · have hfa2 : List.Forall₂ sameCore
        (generate_objects_for_system system_id system_name spect global_seed
          max_primaries randomOf) (objs1 ++ extra) :=
      forall₂_core_trans (forall₂_core_attrUpdate spect _) hfa
    have hcount : (generate_objects_for_system system_id system_name spect
        global_seed max_primaries randomOf).countP
        (fun o => o.is_moon == 0) = n := by
      rw [forall₂_core_countP (fun o => o.is_moon == 0)
        (fun a b hab => by simp only [(sameCore_fields hab).2.2.2.2]) hfa2]
      rw [List.countP_append]
      have h1 : objs1.countP (fun o => o.is_moon == 0) = objs1.length :=
        List.countP_eq_length.mpr (fun o ho => by simp [hm0 o ho])
      have h2 : extra.countP (fun o => o.is_moon == 0) = 0 :=
        List.countP_eq_zero.mpr (fun o ho => by simp [hextra o ho])
      rw [h1, h2, hlen]
      omega
    constructor
    · intro hle
      exact absurd hmp (by omega)
    · left
      rw [hcount]
      exact hnle

/-- C6 witness: a concrete non-home system. -/
theorem primary_budget_respected_witness :
    ((5 : Int) ≤ 0 → generate_objects_for_system 1 ("Alpha") ("G2V") 0 5
      constROF = []) ∧
    (((generate_objects_for_system 1 ("Alpha") ("G2V") 0 5
        constROF).countP (fun o => o.is_moon == 0) : Int) ≤ 5 ∨
      generate_objects_for_system 1 ("Alpha") ("G2V") 0 5 constROF = []) :=
  primary_budget_respected 1 ("Alpha") ("G2V") 0 5 constROF (by decide)

/-- C10.  In a non-home system at most one non-moon object has class AS,
and if one exists then the system has at least two non-moon objects (the
substitution step is gated on a primary count of at least two). -/
theorem single_asteroid_substitution (system_id : Nat)
    (system_name spect : String) (global_seed : Nat) (max_primaries : Int)
    (randomOf : Nat → RState) (hsid : system_id ≠ 0) :
    (generate_objects_for_system system_id system_name spect global_seed
      max_primaries randomOf).countP
      (fun o => o.is_moon == 0 && o.class_code == "AS") ≤ 1 ∧
    ((∃ o ∈ generate_objects_for_system system_id system_name spect
        global_seed max_primaries randomOf,
        o.is_moon = 0 ∧ o.class_code = "AS") →
      2 ≤ (generate_objects_for_system system_id system_name spect
        global_seed max_primaries randomOf).countP
        (fun o => o.is_moon == 0)) := by
  rcases preObjects_struct system_id system_name global_seed max_primaries
    randomOf hsid with hpre |
    ⟨n, objs1, extra, hmp, hnle, hfa, hlen, hm0, hcnt1, hAS2, hextra, _⟩
  · have hgen : generate_objects_for_system system_id system_name spect
        global_seed max_primaries randomOf = [] := by
      unfold generate_objects_for_system
      rw [hpre]
      rfl
    rw [hgen]
    exact ⟨by simp, fun h => by simp at h⟩
  · have hfa2 : List.Forall₂ sameCore
        (generate_objects_for_system system_id system_name spect global_seed
          max_primaries randomOf) (objs1 ++ extra) :=
      forall₂_core_trans (forall₂_core_attrUpdate spect _) hfa
    constructor
    · rw [forall₂_core_countP
        (fun o => o.is_moon == 0 && o.class_code == "AS")
        (fun a b hab => by
          obtain ⟨_, _, hc, _, hm⟩ := sameCore_fields hab
          simp only [hc, hm]) hfa2]
      rw [List.countP_append]
      have h2 : extra.countP
          (fun o => o.is_moon == 0 && o.class_code == "AS") = 0 :=
        List.countP_eq_zero.mpr (fun o ho => by simp [hextra o ho])
      omega
    · rintro ⟨o, ho, hom, hcls⟩
      obtain ⟨x, hx, hcore⟩ := forall₂_core_mem hfa2 o ho
      obtain ⟨_, _, hc, _, hm⟩ := sameCore_fields hcore
      have hx1 : x ∈ objs1 := by
        rcases List.mem_append.mp hx with h1 | h2
        · exact h1
        · exfalso
          have := hextra x h2
          rw [← hm, hom] at this
          cases this
      have hn2 : 2 ≤ n := hAS2 ⟨x, hx1, by rw [← hc]; exact hcls⟩
      have hcount : (generate_objects_for_system system_id system_name spect
          global_seed max_primaries randomOf).countP
          (fun o => o.is_moon == 0) = n := by
        rw [forall₂_core_countP (fun o => o.is_moon == 0)
          (fun a b hab => by simp only [(sameCore_fields hab).2.2.2.2]) hfa2]
        rw [List.countP_append]
        have h1 : objs1.countP (fun o => o.is_moon == 0) = objs1.length :=
          List.countP_eq_length.mpr (fun o ho => by simp [hm0 o ho])
        have h2 : extra.countP (fun o => o.is_moon == 0) = 0 :=
          List.countP_eq_zero.mpr (fun o ho => by simp [hextra o ho])
        rw [h1, h2, hlen]
        omega
      rw [hcount]
      exact hn2

/-- C10 witness: a concrete non-home system. -/
theorem single_asteroid_substitution_witness :
    (generate_objects_for_system 1 ("Alpha") ("G2V") 0 5 halfROF).countP
      (fun o => o.is_moon == 0 && o.class_code == "AS") ≤ 1 ∧
    ((∃ o ∈ generate_objects_for_system 1 ("Alpha") ("G2V") 0 5 halfROF,
        o.is_moon = 0 ∧ o.class_code = "AS") →
      2 ≤ (generate_objects_for_system 1 ("Alpha") ("G2V") 0 5
        halfROF).countP (fun o => o.is_moon == 0)) :=
  single_asteroid_substitution 1 ("Alpha") ("G2V") 0 5 halfROF (by decide)

/-! ## C7: attributes are a pure function of object identity -/

theorem tuple4_eta (t : Int × Int × Nat × Nat) :
    (t.1, t.2.1, t.2.2.1, t.2.2.2) = t := by
  rcases t with ⟨a, b, c, d⟩
  rfl

theorem attrs_of_generate (system_id : Nat) (system_name spect : String)
    (global_seed : Nat) (max_primaries : Int) (randomOf : Nat → RState)
    (o : CelestialObject)
    (ho : o ∈ generate_objects_for_system system_id system_name spect
      global_seed max_primaries randomOf) :
    attrsOf o = compute_attributes o.system_id o.object_id o.class_code
      spect := by
  unfold generate_objects_for_system at ho
  obtain ⟨x, hx, rfl⟩ := List.mem_map.mp ho
  exact tuple4_eta _

/-- C7.  Every emitted object's four attributes equal
`compute_attributes(system_id, object_id, class, spect)` of that object's
own identity fields; hence any two objects from any two runs (any seeds,
caps, streams) agreeing on `(system_id, object_id, class, spect)` carry
identical attributes. -/
theorem attributes_pure_function (system_id : Nat)
    (system_name spect : String) (global_seed : Nat) (max_primaries : Int)
    (randomOf : Nat → RState) (system_id' : Nat) (system_name' : String)
    (global_seed' : Nat) (max_primaries' : Int) (randomOf' : Nat → RState)
    (o o' : CelestialObject)
    (ho : o ∈ generate_objects_for_system system_id system_name spect
      global_seed max_primaries randomOf)
    (ho' : o' ∈ generate_objects_for_system system_id' system_name' spect
      global_seed' max_primaries' randomOf')
    (h1 : o.system_id = o'.system_id) (h2 : o.object_id = o'.object_id)
    (h3 : o.class_code = o'.class_code) :
    attrsOf o = compute_attributes o.system_id o.object_id o.class_code
      spect ∧ attrsOf o = attrsOf o' := by
  have e1 := attrs_of_generate system_id system_name spect global_seed
    max_primaries randomOf o ho
  have e2 := attrs_of_generate system_id' system_name' spect global_seed'
    max_primaries' randomOf' o' ho'
  refine ⟨e1, ?_⟩
  rw [e1, e2, h1, h2, h3]

/-- C7 witness: Earth as produced by two runs with different names, seeds,
caps and streams. -/
theorem attributes_pure_function_witness :
    attrsOf ((generate_objects_for_system 0 ("Sol") ("G2V") 0 5
        constROF).getD 0 defaultObject) =
      compute_attributes
        ((generate_objects_for_system 0 ("Sol") ("G2V") 0 5
          constROF).getD 0 defaultObject).system_id
        ((generate_objects_for_system 0 ("Sol") ("G2V") 0 5
          constROF).getD 0 defaultObject).object_id
        ((generate_objects_for_system 0 ("Sol") ("G2V") 0 5
          constROF).getD 0 defaultObject).class_code ("G2V") ∧
    attrsOf ((generate_objects_for_system 0 ("Sol") ("G2V") 0 5
        constROF).getD 0 defaultObject) =
      attrsOf ((generate_objects_for_system 0 ("Home") ("G2V") 7 3
        halfROF).getD 0 defaultObject) :=
  attributes_pure_function 0 ("Sol") ("G2V") 0 5 constROF 0 ("Home") 7 3
    halfROF _ _
    (List.get?_mem
      (show (generate_objects_for_system 0 ("Sol") ("G2V") 0 5
        constROF).get? 0 = some ((generate_objects_for_system 0 ("Sol")
        ("G2V") 0 5 constROF).getD 0 defaultObject) from rfl))
    (List.get?_mem
      (show (generate_objects_for_system 0 ("Home") ("G2V") 7 3
        halfROF).get? 0 = some ((generate_objects_for_system 0 ("Home")
        ("G2V") 7 3 halfROF).getD 0 defaultObject) from rfl))
    rfl rfl rfl

/-! ## C5: home-star priority in grid-cell collisions -/

/-- C5.  In any grid cell of `project_to_grid` holding two or more stars,
if a star flagged `is_sol` is among the occupants then the cell's survivor
is the first flagged occupant (so it is a flagged one and belongs to the
cell); the survivor appears in the output, which takes exactly one
survivor per occupied cell — every other occupant of the cell is dropped
regardless of name, luminosity or magnitude. -/
theorem home_star_cell_priority (stars : List StarRec) (scale : ℚ)
    (k : Int × Int) (c : List StarRec)
    (hc : (k, c) ∈ cellMapOf stars scale) (h2 : 2 ≤ c.length)
    (hsol : ∃ s ∈ c, s.is_sol = true) :
    some (chooseSurvivor c) = (c.filter (fun s => s.is_sol)).head? ∧
    (chooseSurvivor c).is_sol = true ∧ chooseSurvivor c ∈ c ∧
    chooseSurvivor c ∈ project_to_grid stars scale ∧
    project_to_grid stars scale =
      ((cellMapOf stars scale).filter (fun kc => ¬ kc.2.isEmpty)).map
        (fun kc => chooseSurvivor kc.2) := by
  obtain ⟨s0, hs0c, hs0⟩ := hsol
  have hmemf : s0 ∈ c.filter (fun s => s.is_sol) :=
    List.mem_filter.mpr ⟨hs0c, hs0⟩
  have hne : c.filter (fun s => s.is_sol) ≠ [] := List.ne_nil_of_mem hmemf
  cases hfe : c.filter (fun s => s.is_sol) with
  | nil => exact absurd hfe hne
  | cons sol rest =>
      have hcs : chooseSurvivor c = sol := by
        unfold chooseSurvivor
        rw [hfe]
      have hsolmem : sol ∈ c.filter (fun s => s.is_sol) := by
        rw [hfe]
        exact List.mem_cons_self _ _
      have hsol_is : sol.is_sol = true := (List.mem_filter.mp hsolmem).2
      have hsolc : sol ∈ c := (List.mem_filter.mp hsolmem).1
      have hcne : c.isEmpty = false := by
        rcases c with _ | ⟨a, c'⟩
        · simp at h2
        · rfl
      have hcell : (k, c) ∈
          (cellMapOf stars scale).filter (fun kc => ¬ kc.2.isEmpty) :=
        List.mem_filter.mpr ⟨hc, by simp [hcne]⟩
      refine ⟨by simp [hcs, hfe], by rw [hcs]; exact hsol_is,
        by rw [hcs]; exact hsolc, ?_, rfl⟩
      have := List.mem_map_of_mem
        (fun kc => chooseSurvivor kc.2) hcell
      exact this

/-- C5 witness: the flagged home star and a brighter named neighbour that
project to the same cell; the home star survives. -/
theorem home_star_cell_priority_witness :
    some (chooseSurvivor [solStar, rivalStar]) =
      (List.filter (fun s => s.is_sol) [solStar, rivalStar]).head? ∧
    (chooseSurvivor [solStar, rivalStar]).is_sol = true ∧
    chooseSurvivor [solStar, rivalStar] ∈ [solStar, rivalStar] ∧
    chooseSurvivor [solStar, rivalStar] ∈
      project_to_grid [solStar, rivalStar] 1 ∧
    project_to_grid [solStar, rivalStar] 1 =
      ((cellMapOf [solStar, rivalStar] 1).filter
        (fun kc => ¬ kc.2.isEmpty)).map (fun kc => chooseSurvivor kc.2) :=
  home_star_cell_priority [solStar, rivalStar] 1 (50, 50)
    [solStar, rivalStar]
    (by
      have h50 : pyRound 50 = 50 := by
        unfold pyRound
        norm_num
      simp [cellMapOf, solStar, rivalStar, h50, addToCell])
    (by simp) ⟨solStar, by simp, rfl⟩
